import Mathlib

/-!
Verification development for the Camb.ai n8n integration node.

The repository's algorithmic core lives in `GenericFunctions.ts`
(request dispatcher `cambAiApiRequest`, task poller `pollForResult`,
WAV header builder `generateWavHeader`) and in the orchestration body
of `CambAi.node.ts` / its extended variant.  This file gives a shallow
embedding of those functions over `Nat`/`List`/`Except` and proves the
behavioural properties stated in the specification.

Conventions of the embedding:
* JavaScript numbers that the code uses as integers are modelled as `Nat`;
  Node `Buffer.writeUInt32LE` / `writeUInt16LE` store the value modulo
  2^32 / 2^16 (Node itself asserts the value is in range, so on the
  domain where the source returns at all the two agree).
* A `Buffer` is a `List Nat` of byte values.
* JavaScript `x || y` on strings (empty string is falsy) is `jsOrStr`.
* Fallible calls are `Except`; an HTTP transport failure is `HttpError`.
-/

/-- JavaScript `v || fallback` for an optional string field: `undefined`
and the empty string both fall through to the fallback. -/
def jsOrStr (v : Option String) (fallback : String) : String :=
  match v with
  | some s => if s = "" then fallback else s
  | none => fallback

/-- ASCII byte values of a string, as written by Node `buffer.write(s, off)`
for pure-ASCII `s`. -/
def asciiBytes (s : String) : List Nat :=
  s.toList.map Char.toNat

/-- Little-endian byte serialisation of `Buffer.writeUInt16LE` (value taken
mod 2^16; Node asserts the range instead, see module comment). -/
def u16le (v : Nat) : List Nat :=
  [v % 256, v / 256 % 256]

/-- Little-endian byte serialisation of `Buffer.writeUInt32LE`. -/
def u32le (v : Nat) : List Nat :=
  [v % 256, v / 256 % 256, v / 65536 % 256, v / 16777216 % 256]

/-- Overwrite `bytes.length` bytes of `buf` starting at `offset`; the list
analogue of a Node `Buffer` write at an offset.  (Node asserts the write
stays inside the buffer; every write below does, so the out-of-range
clauses are never reached for the headers built here.) -/
def writeBytes : List Nat → Nat → List Nat → List Nat
  | buf, _, [] => buf
  | [], _, _ => []
  | _ :: buf, 0, x :: xs => x :: writeBytes buf 0 xs
  | b :: buf, o + 1, bytes => b :: writeBytes buf o bytes

/-- Embedding of `generateWavHeader(dataLength, sampleRate, numChannels,
bitsPerSample)` from `GenericFunctions.ts`: allocate a zeroed 44-byte
buffer and perform the thirteen writes in source order. -/
def generateWavHeader (dataLength : Nat) (sampleRate : Nat := 22050)
    (numChannels : Nat := 1) (bitsPerSample : Nat := 16) : List Nat :=
  let byteRate := sampleRate * numChannels * (bitsPerSample / 8)
  let blockAlign := numChannels * (bitsPerSample / 8)
  let fileSize := 36 + dataLength
  let header := List.replicate 44 0
  -- RIFF chunk descriptor
  let header := writeBytes header 0 (asciiBytes "RIFF")
  let header := writeBytes header 4 (u32le fileSize)
  let header := writeBytes header 8 (asciiBytes "WAVE")
  -- fmt sub-chunk
  let header := writeBytes header 12 (asciiBytes "fmt ")
  let header := writeBytes header 16 (u32le 16)
  let header := writeBytes header 20 (u16le 1)
  let header := writeBytes header 22 (u16le numChannels)
  let header := writeBytes header 24 (u32le sampleRate)
  let header := writeBytes header 28 (u32le byteRate)
  let header := writeBytes header 32 (u16le blockAlign)
  let header := writeBytes header 34 (u16le bitsPerSample)
  -- data sub-chunk
  let header := writeBytes header 36 (asciiBytes "data")
  let header := writeBytes header 40 (u32le dataLength)
  header

/-- Decode the little-endian u16 stored at `off`. -/
def readU16LE (buf : List Nat) (off : Nat) : Nat :=
  buf.getD off 0 + 256 * buf.getD (off + 1) 0

/-- Decode the little-endian u32 stored at `off`. -/
def readU32LE (buf : List Nat) (off : Nat) : Nat :=
  buf.getD off 0 + 256 * buf.getD (off + 1) 0 +
    65536 * buf.getD (off + 2) 0 + 16777216 * buf.getD (off + 3) 0

/-! ## HTTP request client (`cambAiApiRequest`, GenericFunctions.ts) -/

/-- The fixed base endpoint `BASE_URL` of GenericFunctions.ts. -/
def BASE_URL : String := "https://client.camb.ai/apis"

/-- An option bag, modelling the `options: IDataObject` argument as an
association list (JS object keys are unique; only the `baseURL` entry is
ever inspected by the dispatcher). -/
abbrev OptBag := List (String × String)

/-- JS property read `options[k]`: `none` means `undefined`. -/
def lookupOpt (k : String) : OptBag → Option String
  | [] => none
  | p :: rest => if p.1 = k then some p.2 else lookupOpt k rest

/-- JS `delete options[k]` (object keys are unique). -/
def deleteOpt (k : String) : OptBag → OptBag
  | [] => []
  | p :: rest => if p.1 = k then deleteOpt k rest else p :: deleteOpt k rest

/-- The part of a built `IHttpRequestOptions` that the claims are about. -/
structure BuiltRequest where
  url : String
  authenticated : Bool
  options : OptBag
deriving DecidableEq

/-- Embedding of the target-resolution and authentication logic of
`cambAiApiRequest` (GenericFunctions.ts lines 23–65): `baseURL` defaults
to `BASE_URL` when the option is absent (`!== undefined`), an empty
`baseURL` makes the endpoint the full URL and skips authentication, and
the `baseURL` marker is deleted from the options before they are merged
into the request. -/
def buildRequest (endpoint : String) (opts : OptBag) : BuiltRequest :=
  let baseURL := (lookupOpt "baseURL" opts).getD BASE_URL
  let url := if baseURL = "" then endpoint else baseURL ++ endpoint
  { url := url
    authenticated := baseURL != ""
    options := deleteOpt "baseURL" opts }

/-- A failed HTTP transport call, as observed by the `catch` blocks:
an object with optional `statusCode` and `message` fields. -/
structure HttpError where
  statusCode : Option Nat
  message : Option String
deriving DecidableEq

/-- The classified errors thrown by `cambAiApiRequest`'s catch block. -/
inductive ApiError where
  | auth (msg : String)
  | rateLimit (msg : String)
  | badRequest (msg : String)
  | generic (original : HttpError)
deriving DecidableEq

/-- Embedding of the catch block of `cambAiApiRequest` (GenericFunctions.ts
lines 68–90): classify by `statusCode` in source order, falling back to a
generic wrapper around the original error. -/
def classifyApiError (e : HttpError) : ApiError :=
  if e.statusCode = some 401 then
    .auth "Invalid API key. Please check your Camb.ai credentials."
  else if e.statusCode = some 429 then
    .rateLimit "Rate limit exceeded. Please wait before making more requests."
  else if e.statusCode = some 400 then
    .badRequest ("Bad request: " ++ jsOrStr e.message "Invalid parameters")
  else
    .generic e

/-- Embedding of the try/catch result flow of `cambAiApiRequest`: the single
HTTP call either returns its response or its failure is classified and
rethrown; no retry path exists. -/
def cambAiApiRequest {α : Type} (transport : Except HttpError α) : Except ApiError α :=
  match transport with
  | .ok r => .ok r
  | .error e => .error (classifyApiError e)

/-! ## Task poller (`pollForResult`, GenericFunctions.ts) -/

/-- A successfully transported poll response body (`result : IDataObject`);
each field is optional, `none` modelling an absent JS property. -/
structure PollResponse where
  status : Option String := none
  message : Option String := none
  error : Option String := none
  run_id : Option String := none
deriving DecidableEq

/-- JavaScript `s.toUpperCase()`, character by character (the statuses
compared against are plain ASCII, where the two agree). -/
def jsToUpperCase (s : String) : String :=
  String.mk (s.toList.map Char.toUpper)

/-- The uppercased status string: `(result.status || '').toUpperCase()`. -/
def statusOf (r : PollResponse) : String :=
  jsToUpperCase (jsOrStr r.status "")

/-- What one successful poll response makes the loop do. -/
inductive PollStep where
  | done (r : PollResponse)
  | fail (msg : String)
  | again
deriving DecidableEq

/-- Embedding of the status dispatch inside `pollForResult`'s loop body
(GenericFunctions.ts lines 115–134): SUCCESS returns the envelope,
ERROR/FAILED/TIMEOUT/PAYMENT_REQUIRED throw their messages, anything else
sleeps and polls again. -/
def pollStep (r : PollResponse) : PollStep :=
  let status := statusOf r
  if status = "SUCCESS" then
    .done r
  else if status = "ERROR" ∨ status = "FAILED" then
    .fail ("Task failed: " ++ jsOrStr r.message (jsOrStr r.error "Unknown error"))
  else if status = "TIMEOUT" then
    .fail "Task timed out on the server. Try again or use smaller input."
  else if status = "PAYMENT_REQUIRED" then
    .fail "Insufficient credits. Please check your Camb.ai account balance."
  else
    .again

/-- One iteration's observable input: the status request either returns a
body or fails in transport with a status code and message. -/
inductive PollEvent where
  | ok (r : PollResponse)
  | httpError (statusCode : Option Nat) (msg : String)
deriving DecidableEq

/-- The poller's outcome on a finite trace of events, recording how many
poll intervals were slept; `pending n` means the trace ran out while the
loop would still be polling. -/
inductive PollOutcome where
  | success (r : PollResponse) (sleeps : Nat)
  | taskError (msg : String) (sleeps : Nat)
  | transportError (statusCode : Option Nat) (msg : String) (sleeps : Nat)
  | pending (sleeps : Nat)
deriving DecidableEq

/-- Embedding of the `while (true)` loop of `pollForResult`
(GenericFunctions.ts lines 105–146), driven by a finite trace of
transport events.  A task-status throw from the dispatch is re-raised by
the catch (its error has no 404 `statusCode`), so it ends the loop as
`taskError`; a transport failure whose `statusCode` is 404 is swallowed
and the loop sleeps and retries, any other transport failure ends the
loop immediately. -/
def pollForResult : List PollEvent → Nat → PollOutcome
  | [], sleeps => .pending sleeps
  | .ok r :: rest, sleeps =>
    match pollStep r with
    | .done env => .success env sleeps
    | .fail msg => .taskError msg sleeps
    | .again => pollForResult rest (sleeps + 1)
  | .httpError code msg :: rest, sleeps =>
    if code = some 404 then pollForResult rest (sleeps + 1)
    else .transportError code msg sleeps

/-- An event the loop survives: a response whose status is non-terminal,
or a 404 transport failure. -/
def nonTerminalEvent : PollEvent → Bool
  | .ok r => pollStep r == .again
  | .httpError code _ => code == some 404

lemma pollForResult_skip (pre : List PollEvent)
    (h : ∀ e ∈ pre, nonTerminalEvent e = true) (rest : List PollEvent) (n : Nat) :
    pollForResult (pre ++ rest) n = pollForResult rest (n + pre.length) := by
  induction pre generalizing n with
  | nil => simp
  | cons e pre ih =>
    have he : nonTerminalEvent e = true := h e (List.mem_cons_self e pre)
    have hpre : ∀ x ∈ pre, nonTerminalEvent x = true :=
      fun x hx => h x (List.mem_cons_of_mem e hx)
    cases e with
    | ok r =>
      have hstep : pollStep r = .again := by
        simpa [nonTerminalEvent] using he
      have h1 : pollForResult ((PollEvent.ok r :: pre) ++ rest) n =
          pollForResult (pre ++ rest) (n + 1) := by
        simp [pollForResult, hstep]
      rw [h1, ih hpre]
      congr 1
      simp only [List.length_cons]
      omega
    | httpError code msg =>
      have hcode : code = some 404 := by
        simpa [nonTerminalEvent] using he
      subst hcode
      have h1 : pollForResult ((PollEvent.httpError (some 404) msg :: pre) ++ rest) n =
          pollForResult (pre ++ rest) (n + 1) := by
        simp [pollForResult]
      rw [h1, ih hpre]
      congr 1
      simp only [List.length_cons]
      omega

/-! ## Orchestrator pieces (`CambAi.execute`, CambAi.node.ts) -/

/-- The per-model sample-rate table `MODEL_SAMPLE_RATES`. -/
def MODEL_SAMPLE_RATES : List (String × Nat) :=
  [("mars-flash", 22050), ("mars-pro", 48000), ("mars-instruct", 22050)]

/-- JS `MODEL_SAMPLE_RATES[model] || 22050` (0 would be falsy). -/
def modelSampleRate (model : String) : Nat :=
  match (MODEL_SAMPLE_RATES.find? (fun p => p.1 == model)).map (fun p => p.2) with
  | some v => if v = 0 then 22050 else v
  | none => 22050

/-- The `mimeTypes` table of the synthesize branch. -/
def mimeTypes : List (String × String) :=
  [("wav", "audio/wav"), ("flac", "audio/flac"), ("adts", "audio/aac"),
    ("pcm_s16le", "audio/wav")]

/-- JS `mimeTypes[outputFormat] || 'audio/wav'`. -/
def synthesizeMimeType (outputFormat : String) : String :=
  jsOrStr ((mimeTypes.find? (fun p => p.1 == outputFormat)).map (fun p => p.2))
    "audio/wav"

/-- Embedding of the payload assembly of the synthesize branch
(extended node, lines 799–805): for `pcm_s16le` prepend the generated WAV
header to the raw response bytes, otherwise keep the raw bytes. -/
def synthesizeAudioBuffer (outputFormat model : String) (raw : List Nat) : List Nat :=
  if outputFormat = "pcm_s16le" then
    generateWavHeader raw.length (modelSampleRate model) 1 16 ++ raw
  else
    raw

/-- What the synthesize branch does for one item up to the submit call
(extended node, lines 769–797): the text-length validation runs first and
throws before the `/tts-stream` request is issued; otherwise the request
is issued.  `requests` lists the endpoints the branch has called. -/
structure SynthSubmit where
  requests : List String
  result : Except String Unit

def synthesizeSubmit (text : String) : SynthSubmit :=
  if text.length < 3 ∨ text.length > 3000 then
    { requests := []
      result := .error "Text must be between 3 and 3000 characters" }
  else
    { requests := ["/tts-stream"]
      result := .ok () }

/-- A JavaScript value, as far as `JSON.parse`'s result is inspected here. -/
inductive JsValue where
  | str (s : String)
  | num (n : Int)
  | bool (b : Bool)
  | null
  | arr (elems : List JsValue)
  | obj (fields : List (String × JsValue))

/-- Embedding of the texts parsing of the translate branch (extended node,
lines 1107–1116).  `JSON.parse` itself is the host runtime's parser; its
outcome is passed in as `parseResult` (`.error` models a parse throw).
The branch keeps the parsed value only when it is an array, and otherwise
falls back to the single-element list holding the raw input string. -/
def parseTranslateTexts (parseResult : Except Unit JsValue) (textsInput : String) :
    List JsValue :=
  match parseResult with
  | .ok (.arr xs) => xs
  | .ok _ => [.str textsInput]
  | .error _ => [.str textsInput]

/-- Embedding of the preview-download tail of the createVoice branch
(extended node, lines 1192–1250): the branch unconditionally fetches
`previews[0]` and `previews[1]` (no length guard exists), and on success
stores the two downloads under the caller-chosen binary property name and
that name suffixed with `_preview2`.  Reading past the end of the list
yields JS `undefined` (`none`), and issuing a GET against an undefined
URL fails in transport, which the branch does not catch. -/
def createVoicePreviews (previews : List String) (binaryPropertyName : String) :
    Except String (List (String × String)) :=
  match previews.get? 0, previews.get? 1 with
  | some url1, some url2 =>
    .ok [(binaryPropertyName, url1), (binaryPropertyName ++ "_preview2", url2)]
  | _, _ => .error "Invalid URL"

/-- One record pushed to `returnData`: a json payload (modelled as key/value
pairs) plus the `pairedItem: \x7b item: i \x7d` index. -/
structure OutRecord where
  json : List (String × String)
  pairedItem : Nat
deriving DecidableEq

/-- Embedding of the item loop of `CambAi.execute` (extended node, lines
755–756 and 1318–1328): each item is processed by `proc` (which may push
several records, all carrying that item's index); on a throw, if
`continueOnFail` the error message becomes that item's own record and the
loop continues, otherwise the whole batch aborts by rethrowing. -/
def runItems (proc : Nat → Except String (List (List (String × String))))
    (continueOnFail : Bool) : List Nat → Except String (List OutRecord)
  | [] => .ok []
  | i :: rest =>
    match proc i with
    | .ok payloads =>
      match runItems proc continueOnFail rest with
      | .ok recs => .ok (payloads.map (fun p => OutRecord.mk p i) ++ recs)
      | .error m => .error m
    | .error m =>
      if continueOnFail then
        match runItems proc continueOnFail rest with
        | .ok recs => .ok (OutRecord.mk [("error", m)] i :: recs)
        | .error m2 => .error m2
      else
        .error m

/-- Specification-side description of the continue-on-failure output: one
block of records per item in order, successful items contributing their
payloads and failing items a single error record, every record tagged
with its item's index. -/
def runItemsSpec (proc : Nat → Except String (List (List (String × String)))) :
    List Nat → List OutRecord
  | [] => []
  | i :: rest =>
    (match proc i with
      | .ok payloads => payloads.map (fun p => OutRecord.mk p i)
      | .error m => [OutRecord.mk [("error", m)] i]) ++ runItemsSpec proc rest

/-- Normal form of the header: the thirteen writes tile the 44 bytes
exactly, so the header is the concatenation of its fields. -/
lemma generateWavHeader_eq (d s c b : Nat) : generateWavHeader d s c b =
    asciiBytes "RIFF" ++ u32le (36 + d) ++ asciiBytes "WAVE" ++ asciiBytes "fmt " ++
    u32le 16 ++ u16le 1 ++ u16le c ++ u32le s ++ u32le (s * c * (b / 8)) ++
    u16le (c * (b / 8)) ++ u16le b ++ asciiBytes "data" ++ u32le d := rfl

lemma generateWavHeader_length (d s c b : Nat) :
    (generateWavHeader d s c b).length = 44 := rfl

/-- Recomposing a `u32le`-serialised value below 2^32 gives it back. -/
lemma u32_roundtrip (v : Nat) (h : v < 4294967296) :
    v % 256 + 256 * (v / 256 % 256) + 65536 * (v / 65536 % 256) +
      16777216 * (v / 16777216 % 256) = v := by
  omega

/-- Recomposing a `u16le`-serialised value below 2^16 gives it back. -/
lemma u16_roundtrip (v : Nat) (h : v < 65536) :
    v % 256 + 256 * (v / 256 % 256) = v := by
  omega

set_option maxHeartbeats 1600000 in
lemma wavField_take4 (d s c b : Nat) :
    (generateWavHeader d s c b).take 4 = asciiBytes "RIFF" := rfl

set_option maxHeartbeats 1600000 in
lemma wavField_wave (d s c b : Nat) :
    ((generateWavHeader d s c b).drop 8).take 4 = asciiBytes "WAVE" := rfl

set_option maxHeartbeats 1600000 in
lemma wavField_fmt (d s c b : Nat) :
    ((generateWavHeader d s c b).drop 12).take 4 = asciiBytes "fmt " := rfl

set_option maxHeartbeats 1600000 in
lemma wavField_data (d s c b : Nat) :
    ((generateWavHeader d s c b).drop 36).take 4 = asciiBytes "data" := rfl

set_option maxHeartbeats 1600000 in
lemma wavField_fileSize (d s c b : Nat) (hfs : 36 + d < 4294967296) :
    readU32LE (generateWavHeader d s c b) 4 = 36 + d := by
  have e0 : (generateWavHeader d s c b).getD 4 0 = (36 + d) % 256 := rfl
  have e1 : (generateWavHeader d s c b).getD (4 + 1) 0 = (36 + d) / 256 % 256 := rfl
  have e2 : (generateWavHeader d s c b).getD (4 + 2) 0 = (36 + d) / 65536 % 256 := rfl
  have e3 : (generateWavHeader d s c b).getD (4 + 3) 0 = (36 + d) / 16777216 % 256 := rfl
  simp only [readU32LE, e0, e1, e2, e3]
  exact u32_roundtrip (36 + d) hfs

set_option maxHeartbeats 1600000 in
lemma wavField_fmtSize (d s c b : Nat) :
    readU32LE (generateWavHeader d s c b) 16 = 16 := by
  have e0 : (generateWavHeader d s c b).getD 16 0 = 16 := rfl
  have e1 : (generateWavHeader d s c b).getD (16 + 1) 0 = 0 := rfl
  have e2 : (generateWavHeader d s c b).getD (16 + 2) 0 = 0 := rfl
  have e3 : (generateWavHeader d s c b).getD (16 + 3) 0 = 0 := rfl
  simp only [readU32LE, e0, e1, e2, e3]

set_option maxHeartbeats 1600000 in
lemma wavField_audioFormat (d s c b : Nat) :
    readU16LE (generateWavHeader d s c b) 20 = 1 := by
  have e0 : (generateWavHeader d s c b).getD 20 0 = 1 := rfl
  have e1 : (generateWavHeader d s c b).getD (20 + 1) 0 = 0 := rfl
  simp only [readU16LE, e0, e1]

set_option maxHeartbeats 1600000 in
lemma wavField_numChannels (d s c b : Nat) (hc16 : c < 65536) :
    readU16LE (generateWavHeader d s c b) 22 = c := by
  have e0 : (generateWavHeader d s c b).getD 22 0 = c % 256 := rfl
  have e1 : (generateWavHeader d s c b).getD (22 + 1) 0 = c / 256 % 256 := rfl
  simp only [readU16LE, e0, e1]
  exact u16_roundtrip c hc16

set_option maxHeartbeats 1600000 in
lemma wavField_sampleRate (d s c b : Nat) (hs32 : s < 4294967296) :
    readU32LE (generateWavHeader d s c b) 24 = s := by
  have e0 : (generateWavHeader d s c b).getD 24 0 = s % 256 := rfl
  have e1 : (generateWavHeader d s c b).getD (24 + 1) 0 = s / 256 % 256 := rfl
  have e2 : (generateWavHeader d s c b).getD (24 + 2) 0 = s / 65536 % 256 := rfl
  have e3 : (generateWavHeader d s c b).getD (24 + 3) 0 = s / 16777216 % 256 := rfl
  simp only [readU32LE, e0, e1, e2, e3]
  exact u32_roundtrip s hs32

set_option maxHeartbeats 1600000 in
lemma wavField_byteRate (d s c b : Nat) (hbr : s * c * (b / 8) < 4294967296) :
    readU32LE (generateWavHeader d s c b) 28 = s * c * (b / 8) := by
  have e0 : (generateWavHeader d s c b).getD 28 0 = s * c * (b / 8) % 256 := rfl
  have e1 : (generateWavHeader d s c b).getD (28 + 1) 0 =
      s * c * (b / 8) / 256 % 256 := rfl
  have e2 : (generateWavHeader d s c b).getD (28 + 2) 0 =
      s * c * (b / 8) / 65536 % 256 := rfl
  have e3 : (generateWavHeader d s c b).getD (28 + 3) 0 =
      s * c * (b / 8) / 16777216 % 256 := rfl
  simp only [readU32LE, e0, e1, e2, e3]
  exact u32_roundtrip (s * c * (b / 8)) hbr

set_option maxHeartbeats 1600000 in
lemma wavField_blockAlign (d s c b : Nat) (hba : c * (b / 8) < 65536) :
    readU16LE (generateWavHeader d s c b) 32 = c * (b / 8) := by
  have e0 : (generateWavHeader d s c b).getD 32 0 = c * (b / 8) % 256 := rfl
  have e1 : (generateWavHeader d s c b).getD (32 + 1) 0 = c * (b / 8) / 256 % 256 := rfl
  simp only [readU16LE, e0, e1]
  exact u16_roundtrip (c * (b / 8)) hba

set_option maxHeartbeats 1600000 in
lemma wavField_bitsPerSample (d s c b : Nat) (hb16 : b < 65536) :
    readU16LE (generateWavHeader d s c b) 34 = b := by
  have e0 : (generateWavHeader d s c b).getD 34 0 = b % 256 := rfl
  have e1 : (generateWavHeader d s c b).getD (34 + 1) 0 = b / 256 % 256 := rfl
  simp only [readU16LE, e0, e1]
  exact u16_roundtrip b hb16

set_option maxHeartbeats 1600000 in
lemma wavField_dataLength (d s c b : Nat) (hd32 : d < 4294967296) :
    readU32LE (generateWavHeader d s c b) 40 = d := by
  have e0 : (generateWavHeader d s c b).getD 40 0 = d % 256 := rfl
  have e1 : (generateWavHeader d s c b).getD (40 + 1) 0 = d / 256 % 256 := rfl
  have e2 : (generateWavHeader d s c b).getD (40 + 2) 0 = d / 65536 % 256 := rfl
  have e3 : (generateWavHeader d s c b).getD (40 + 3) 0 = d / 16777216 % 256 := rfl
  simp only [readU32LE, e0, e1, e2, e3]
  exact u32_roundtrip d hd32

/-- Claim C3: `generateWavHeader` returns exactly 44 bytes laid out
little-endian as RIFF/fileSize/WAVE/fmt /16/PCM-tag/channels/sampleRate/
byteRate/blockAlign/bitsPerSample/data/dataLength.  The range bounds are
the ones Node's `writeUInt32LE`/`writeUInt16LE` assert (outside them the
source throws instead of returning a buffer), and `8 ∣ bitsPerSample`
makes the embedded `Nat` division agree with the source's exact
`bitsPerSample / 8`. -/
theorem generateWavHeader_layout (d s c b : Nat)
    (hs : 0 < s) (hc : 0 < c) (hb : 0 < b) (hb8 : 8 ∣ b)
    (hfs : 36 + d < 4294967296) (hs32 : s < 4294967296)
    (hc16 : c < 65536) (hb16 : b < 65536)
    (hbr : s * c * (b / 8) < 4294967296) (hba : c * (b / 8) < 65536)
    (hd32 : d < 4294967296) :
    (generateWavHeader d s c b).length = 44 ∧
    (generateWavHeader d s c b).take 4 = asciiBytes "RIFF" ∧
    readU32LE (generateWavHeader d s c b) 4 = 36 + d ∧
    ((generateWavHeader d s c b).drop 8).take 4 = asciiBytes "WAVE" ∧
    ((generateWavHeader d s c b).drop 12).take 4 = asciiBytes "fmt " ∧
    readU32LE (generateWavHeader d s c b) 16 = 16 ∧
    readU16LE (generateWavHeader d s c b) 20 = 1 ∧
    readU16LE (generateWavHeader d s c b) 22 = c ∧
    readU32LE (generateWavHeader d s c b) 24 = s ∧
    readU32LE (generateWavHeader d s c b) 28 = s * c * (b / 8) ∧
    readU16LE (generateWavHeader d s c b) 32 = c * (b / 8) ∧
    readU16LE (generateWavHeader d s c b) 34 = b ∧
    ((generateWavHeader d s c b).drop 36).take 4 = asciiBytes "data" ∧
    readU32LE (generateWavHeader d s c b) 40 = d :=
  ⟨generateWavHeader_length d s c b, wavField_take4 d s c b,
    wavField_fileSize d s c b hfs, wavField_wave d s c b, wavField_fmt d s c b,
    wavField_fmtSize d s c b, wavField_audioFormat d s c b,
    wavField_numChannels d s c b hc16, wavField_sampleRate d s c b hs32,
    wavField_byteRate d s c b hbr, wavField_blockAlign d s c b hba,
    wavField_bitsPerSample d s c b hb16, wavField_data d s c b,
    wavField_dataLength d s c b hd32⟩

/-- Witness for C3 at dataLength 1000, sampleRate 24000, mono, 16-bit. -/
theorem generateWavHeader_layout_witness :
    (generateWavHeader 1000 24000 1 16).length = 44 ∧
    (generateWavHeader 1000 24000 1 16).take 4 = asciiBytes "RIFF" ∧
    readU32LE (generateWavHeader 1000 24000 1 16) 4 = 36 + 1000 ∧
    ((generateWavHeader 1000 24000 1 16).drop 8).take 4 = asciiBytes "WAVE" ∧
    ((generateWavHeader 1000 24000 1 16).drop 12).take 4 = asciiBytes "fmt " ∧
    readU32LE (generateWavHeader 1000 24000 1 16) 16 = 16 ∧
    readU16LE (generateWavHeader 1000 24000 1 16) 20 = 1 ∧
    readU16LE (generateWavHeader 1000 24000 1 16) 22 = 1 ∧
    readU32LE (generateWavHeader 1000 24000 1 16) 24 = 24000 ∧
    readU32LE (generateWavHeader 1000 24000 1 16) 28 = 24000 * 1 * (16 / 8) ∧
    readU16LE (generateWavHeader 1000 24000 1 16) 32 = 1 * (16 / 8) ∧
    readU16LE (generateWavHeader 1000 24000 1 16) 34 = 16 ∧
    ((generateWavHeader 1000 24000 1 16).drop 36).take 4 = asciiBytes "data" ∧
    readU32LE (generateWavHeader 1000 24000 1 16) 40 = 1000 :=
  generateWavHeader_layout 1000 24000 1 16 (by decide) (by decide) (by decide)
    (by decide) (by decide) (by decide) (by decide) (by decide) (by decide)
    (by decide) (by decide)

/-- Claim C6: for the synthesize operation with output format `pcm_s16le`
the final payload is the 44-byte WAV header prepended to the raw bytes
(1000 raw bytes give exactly 1044, beginning with ASCII RIFF) and is
reported as `audio/wav`; every other output format passes the raw bytes
through unchanged. -/
theorem synthesize_pcm_wav_assembly (model fmt : String) (raw : List Nat) :
    (synthesizeAudioBuffer "pcm_s16le" model raw =
      generateWavHeader raw.length (modelSampleRate model) 1 16 ++ raw) ∧
    (synthesizeAudioBuffer "pcm_s16le" model raw).length = 44 + raw.length ∧
    (raw.length = 1000 → (synthesizeAudioBuffer "pcm_s16le" model raw).length = 1044) ∧
    (synthesizeAudioBuffer "pcm_s16le" model raw).take 4 = asciiBytes "RIFF" ∧
    synthesizeMimeType "pcm_s16le" = "audio/wav" ∧
    (fmt ≠ "pcm_s16le" → synthesizeAudioBuffer fmt model raw = raw) := by
  have hassemble : synthesizeAudioBuffer "pcm_s16le" model raw =
      generateWavHeader raw.length (modelSampleRate model) 1 16 ++ raw := rfl
  have hlen : (synthesizeAudioBuffer "pcm_s16le" model raw).length = 44 + raw.length := by
    rw [hassemble, List.length_append, generateWavHeader_length]
  refine ⟨hassemble, hlen, ?_, rfl, rfl, ?_⟩
  · intro h1000
    rw [hlen, h1000]
  · intro hne
    simp [synthesizeAudioBuffer, hne]

/-- Witness for C6 at a 1000-byte raw payload and the `wav` pass-through
format. -/
theorem synthesize_pcm_wav_assembly_witness :
    ((synthesizeAudioBuffer "pcm_s16le" "mars-pro" (List.replicate 1000 7)).length = 1044) ∧
    synthesizeAudioBuffer "wav" "mars-pro" (List.replicate 1000 7) = List.replicate 1000 7 :=
  ⟨(synthesize_pcm_wav_assembly "mars-pro" "wav" (List.replicate 1000 7)).2.2.1
      (List.length_replicate 1000 7),
    (synthesize_pcm_wav_assembly "mars-pro" "wav" (List.replicate 1000 7)).2.2.2.2.2
      (by decide)⟩

/-- Claim C1: in each poll iteration the status of a successful poll
response is uppercased and dispatched: `SUCCESS` returns the full
envelope; `ERROR`/`FAILED`, `TIMEOUT` and `PAYMENT_REQUIRED` raise their
terminal-specific messages; any other status string — including a missing
status field — sleeps one interval and polls again; and
`PAYMENT_REQUIRED` raises the insufficient-balance error regardless of
the prior (non-terminal) polling history. -/
theorem pollForResult_status_dispatch (r : PollResponse) (rest : List PollEvent)
    (n : Nat) :
    (statusOf r = "SUCCESS" →
      pollForResult (.ok r :: rest) n = .success r n) ∧
    (statusOf r = "ERROR" ∨ statusOf r = "FAILED" →
      pollForResult (.ok r :: rest) n =
        .taskError ("Task failed: " ++ jsOrStr r.message (jsOrStr r.error "Unknown error")) n) ∧
    (statusOf r = "TIMEOUT" →
      pollForResult (.ok r :: rest) n =
        .taskError "Task timed out on the server. Try again or use smaller input." n) ∧
    (statusOf r = "PAYMENT_REQUIRED" →
      pollForResult (.ok r :: rest) n =
        .taskError "Insufficient credits. Please check your Camb.ai account balance." n) ∧
    (statusOf r ≠ "SUCCESS" → statusOf r ≠ "ERROR" → statusOf r ≠ "FAILED" →
      statusOf r ≠ "TIMEOUT" → statusOf r ≠ "PAYMENT_REQUIRED" →
      pollForResult (.ok r :: rest) n = pollForResult rest (n + 1)) ∧
    (r.status = none → pollForResult (.ok r :: rest) n = pollForResult rest (n + 1)) ∧
    (statusOf r = "PAYMENT_REQUIRED" →
      ∀ pre : List PollEvent, (∀ e ∈ pre, nonTerminalEvent e = true) →
        pollForResult (pre ++ .ok r :: rest) 0 =
          .taskError "Insufficient credits. Please check your Camb.ai account balance."
            pre.length) := by
  have hnt : statusOf r ≠ "SUCCESS" → statusOf r ≠ "ERROR" → statusOf r ≠ "FAILED" →
      statusOf r ≠ "TIMEOUT" → statusOf r ≠ "PAYMENT_REQUIRED" →
      pollForResult (.ok r :: rest) n = pollForResult rest (n + 1) := by
    intro h1 h2 h3 h4 h5
    simp [pollForResult, pollStep, h1, h2, h3, h4, h5]
  have hpay : statusOf r = "PAYMENT_REQUIRED" →
      pollForResult (.ok r :: rest) n =
        .taskError "Insufficient credits. Please check your Camb.ai account balance." n := by
    intro h
    simp [pollForResult, pollStep, h]
  refine ⟨?_, ?_, ?_, hpay, hnt, ?_, ?_⟩
  · intro h
    simp [pollForResult, pollStep, h]
  · rintro (h | h) <;> simp [pollForResult, pollStep, h]
  · intro h
    simp [pollForResult, pollStep, h]
  · intro h
    have h0 : statusOf r = "" := by
      simp only [statusOf, jsOrStr, h]
      decide
    exact hnt (by simp [h0]) (by simp [h0]) (by simp [h0]) (by simp [h0]) (by simp [h0])
  · intro h pre hpre
    have hstep : pollStep r = .fail
        "Insufficient credits. Please check your Camb.ai account balance." := by
      simp [pollStep, h]
    rw [pollForResult_skip pre hpre (.ok r :: rest) 0]
    simp [pollForResult, hstep]

/-- Witness for C1: a SUCCESS response returns its envelope, and a
lowercase `payment_required` reached after two non-terminal events (a
pending poll and a 404) fails with the insufficient-balance message after
two sleeps. -/
theorem pollForResult_status_dispatch_witness :
    pollForResult
      [.ok { status := some "SUCCESS", run_id := some "r1" }] 0 =
      .success { status := some "SUCCESS", run_id := some "r1" } 0 ∧
    pollForResult
      ([.ok { status := some "PENDING" }, .httpError (some 404) "not found"] ++
        .ok { status := some "payment_required" } :: []) 0 =
      .taskError "Insufficient credits. Please check your Camb.ai account balance." 2 :=
  ⟨(pollForResult_status_dispatch { status := some "SUCCESS", run_id := some "r1" }
      [] 0).1 (by decide),
    (pollForResult_status_dispatch { status := some "payment_required" } [] 0).2.2.2.2.2.2
      (by decide)
      [.ok { status := some "PENDING" }, .httpError (some 404) "not found"]
      (by decide)⟩

/-- Claim C2: a 404 transport failure during polling does not terminate
the loop (one sleep, then retry); any other transport failure terminates
the poll immediately by propagating the error. -/
theorem pollForResult_transport_404 (code : Option Nat) (msg : String)
    (rest : List PollEvent) (n : Nat) :
    (code = some 404 →
      pollForResult (.httpError code msg :: rest) n = pollForResult rest (n + 1)) ∧
    (code ≠ some 404 →
      pollForResult (.httpError code msg :: rest) n = .transportError code msg n) := by
  constructor
  · intro h
    simp [pollForResult, h]
  · intro h
    simp [pollForResult, h]

/-- Witness for C2: a 404 keeps the loop alive to reach a later SUCCESS,
while a 500 terminates it immediately. -/
theorem pollForResult_transport_404_witness :
    pollForResult [.httpError (some 404) "not found",
      .ok { status := some "SUCCESS" }] 0 =
      .success { status := some "SUCCESS" } 1 ∧
    pollForResult [.httpError (some 500) "server error",
      .ok { status := some "SUCCESS" }] 0 =
      .transportError (some 500) "server error" 0 :=
  ⟨((pollForResult_transport_404 (some 404) "not found"
        [.ok { status := some "SUCCESS" }] 0).1 rfl).trans (by decide),
    (pollForResult_transport_404 (some 500) "server error"
        [.ok { status := some "SUCCESS" }] 0).2 (by decide)⟩

/-- Claim C4: a failed HTTP call is classified and raised immediately
with no retry: 401 becomes the invalid-credentials error, 429 the
rate-limit error, 400 the bad-request error embedding the upstream
message (with a generic fallback), and anything else the generic wrapper
around the original error. -/
theorem cambAiApiRequest_error_classification (e : HttpError) :
    cambAiApiRequest (α := Unit) (.error e) = .error (classifyApiError e) ∧
    (e.statusCode = some 401 →
      classifyApiError e =
        .auth "Invalid API key. Please check your Camb.ai credentials.") ∧
    (e.statusCode = some 429 →
      classifyApiError e =
        .rateLimit "Rate limit exceeded. Please wait before making more requests.") ∧
    (e.statusCode = some 400 →
      classifyApiError e =
        .badRequest ("Bad request: " ++ jsOrStr e.message "Invalid parameters")) ∧
    (e.statusCode ≠ some 401 → e.statusCode ≠ some 429 → e.statusCode ≠ some 400 →
      classifyApiError e = .generic e) := by
  refine ⟨rfl, ?_, ?_, ?_, ?_⟩
  · intro h
    simp [classifyApiError, h]
  · intro h
    simp [classifyApiError, h]
  · intro h
    simp [classifyApiError, h]
  · intro h1 h2 h3
    simp [classifyApiError, h1, h2, h3]

/-- Witness for C4 at concrete 401, 429, 400 (with and without an
upstream message) and 500 errors. -/
theorem cambAiApiRequest_error_classification_witness :
    classifyApiError { statusCode := some 401, message := some "unauthorized" } =
      .auth "Invalid API key. Please check your Camb.ai credentials." ∧
    classifyApiError { statusCode := some 429, message := none } =
      .rateLimit "Rate limit exceeded. Please wait before making more requests." ∧
    classifyApiError { statusCode := some 400, message := some "missing voice_id" } =
      .badRequest "Bad request: missing voice_id" ∧
    classifyApiError { statusCode := some 400, message := none } =
      .badRequest "Bad request: Invalid parameters" ∧
    classifyApiError { statusCode := some 500, message := some "boom" } =
      .generic { statusCode := some 500, message := some "boom" } :=
  ⟨(cambAiApiRequest_error_classification
      { statusCode := some 401, message := some "unauthorized" }).2.1 (by decide),
    (cambAiApiRequest_error_classification
      { statusCode := some 429, message := none }).2.2.1 (by decide),
    ((cambAiApiRequest_error_classification
      { statusCode := some 400, message := some "missing voice_id" }).2.2.2.1
      (by decide)).trans (by decide),
    ((cambAiApiRequest_error_classification
      { statusCode := some 400, message := none }).2.2.2.1 (by decide)).trans
      (by decide),
    (cambAiApiRequest_error_classification
      { statusCode := some 500, message := some "boom" }).2.2.2.2
      (by decide) (by decide) (by decide)⟩

/-- Deleting the `baseURL` key really removes it from the option bag. -/
lemma lookupOpt_deleteOpt (k : String) (o : OptBag) :
    lookupOpt k (deleteOpt k o) = none := by
  induction o with
  | nil => rfl
  | cons p o ih =>
    by_cases h : p.1 = k
    · simpa [deleteOpt, h] using ih
    · simpa [deleteOpt, lookupOpt, h] using ih

/-- Claim C5: an explicit empty `baseURL` option makes the endpoint the
full URL and skips the `cambAiApi` credential; an absent `baseURL` option
appends the endpoint to the fixed base endpoint and authenticates; and
the `baseURL` marker is removed from the options before the request
options are built. -/
theorem cambAiApiRequest_target_resolution (endpoint : String) (opts : OptBag) :
    (lookupOpt "baseURL" opts = some "" →
      (buildRequest endpoint opts).url = endpoint ∧
      (buildRequest endpoint opts).authenticated = false) ∧
    (lookupOpt "baseURL" opts = none →
      (buildRequest endpoint opts).url = "https://client.camb.ai/apis" ++ endpoint ∧
      (buildRequest endpoint opts).authenticated = true) ∧
    lookupOpt "baseURL" (buildRequest endpoint opts).options = none := by
  refine ⟨?_, ?_, lookupOpt_deleteOpt "baseURL" opts⟩
  · intro h
    constructor <;> simp [buildRequest, h]
  · intro h
    constructor <;> simp [buildRequest, h, BASE_URL]

/-- Witness for C5: an external preview URL with `baseURL: ''` is used
verbatim and unauthenticated; a normal call is authenticated against the
fixed base; the marker never survives into the options. -/
theorem cambAiApiRequest_target_resolution_witness :
    (buildRequest "https://storage.example/p1.mp3" [("baseURL", "")]).url =
      "https://storage.example/p1.mp3" ∧
    (buildRequest "https://storage.example/p1.mp3" [("baseURL", "")]).authenticated
      = false ∧
    (buildRequest "/list-voices" [("timeout", "60000")]).url =
      "https://client.camb.ai/apis" ++ "/list-voices" ∧
    (buildRequest "/list-voices" [("timeout", "60000")]).authenticated = true ∧
    lookupOpt "baseURL"
      (buildRequest "/x" [("baseURL", ""), ("timeout", "60000")]).options = none :=
  ⟨((cambAiApiRequest_target_resolution "https://storage.example/p1.mp3"
      [("baseURL", "")]).1 (by decide)).1,
    ((cambAiApiRequest_target_resolution "https://storage.example/p1.mp3"
      [("baseURL", "")]).1 (by decide)).2,
    ((cambAiApiRequest_target_resolution "/list-voices"
      [("timeout", "60000")]).2.1 (by decide)).1,
    ((cambAiApiRequest_target_resolution "/list-voices"
      [("timeout", "60000")]).2.1 (by decide)).2,
    (cambAiApiRequest_target_resolution "/x"
      [("baseURL", ""), ("timeout", "60000")]).2.2⟩

/-- Claim C7: the synthesize branch validates the text length before any
network call: lengths below 3 or above 3000 raise the validation error
with no request issued, while lengths exactly 3 and exactly 3000 pass
validation and the submit request is issued. -/
theorem synthesize_text_validation (text : String) :
    (text.length < 3 ∨ text.length > 3000 →
      (synthesizeSubmit text).requests = [] ∧
      (synthesizeSubmit text).result =
        .error "Text must be between 3 and 3000 characters") ∧
    (text.length = 3 →
      (synthesizeSubmit text).requests = ["/tts-stream"] ∧
      (synthesizeSubmit text).result = .ok ()) ∧
    (text.length = 3000 →
      (synthesizeSubmit text).requests = ["/tts-stream"] ∧
      (synthesizeSubmit text).result = .ok ()) := by
  refine ⟨?_, ?_, ?_⟩
  · intro h
    unfold synthesizeSubmit
    rw [if_pos h]
    exact ⟨rfl, rfl⟩
  · intro h
    unfold synthesizeSubmit
    rw [h, if_neg (by omega)]
    exact ⟨rfl, rfl⟩
  · intro h
    unfold synthesizeSubmit
    rw [h, if_neg (by omega)]
    exact ⟨rfl, rfl⟩

/-- Witness for C7 at length 2 (rejected), length 3 (accepted) and length
3000 (accepted). -/
theorem synthesize_text_validation_witness :
    ((synthesizeSubmit "ab").requests = [] ∧
      (synthesizeSubmit "ab").result =
        .error "Text must be between 3 and 3000 characters") ∧
    ((synthesizeSubmit "abc").requests = ["/tts-stream"] ∧
      (synthesizeSubmit "abc").result = .ok ()) ∧
    ((synthesizeSubmit (String.mk (List.replicate 3000 'a'))).requests =
        ["/tts-stream"] ∧
      (synthesizeSubmit (String.mk (List.replicate 3000 'a'))).result = .ok ()) :=
  ⟨(synthesize_text_validation "ab").1 (Or.inl (by decide)),
    (synthesize_text_validation "abc").2.1 (by decide),
    (synthesize_text_validation (String.mk (List.replicate 3000 'a'))).2.2
      ((String.length_mk (List.replicate 3000 'a')).trans
        (List.length_replicate 3000 'a'))⟩

lemma runItems_cof_eq_spec
    (proc : Nat → Except String (List (List (String × String)))) :
    ∀ idxs : List Nat, runItems proc true idxs = .ok (runItemsSpec proc idxs) := by
  intro idxs
  induction idxs with
  | nil => rfl
  | cons i rest ih =>
    cases hp : proc i with
    | ok ps => simp [runItems, runItemsSpec, hp, ih]
    | error m => simp [runItems, runItemsSpec, hp, ih]

lemma runItemsSpec_paired
    (proc : Nat → Except String (List (List (String × String)))) :
    ∀ idxs : List Nat, ∀ r ∈ runItemsSpec proc idxs,
      (∃ ps, proc r.pairedItem = .ok ps ∧ r.json ∈ ps) ∨
      (∃ m, proc r.pairedItem = .error m ∧ r.json = [("error", m)]) := by
  intro idxs
  induction idxs with
  | nil => intro r hr; simp [runItemsSpec] at hr
  | cons i rest ih =>
    intro r hr
    simp only [runItemsSpec, List.mem_append] at hr
    rcases hr with hr | hr
    · cases hp : proc i with
      | ok ps =>
        rw [hp] at hr
        simp only [List.mem_map] at hr
        obtain ⟨p, hp2, rfl⟩ := hr
        exact Or.inl ⟨ps, hp, hp2⟩
      | error m =>
        rw [hp] at hr
        simp only [List.mem_singleton] at hr
        subst hr
        exact Or.inr ⟨m, hp, rfl⟩
    · exact ih r hr

lemma runItems_abort
    (proc : Nat → Except String (List (List (String × String)))) :
    ∀ pre : List Nat, ∀ i : Nat, ∀ rest : List Nat, ∀ m : String,
      (∀ j ∈ pre, ∃ ps, proc j = .ok ps) → proc i = .error m →
      runItems proc false (pre ++ i :: rest) = .error m := by
  intro pre
  induction pre with
  | nil =>
    intro i rest m _ hi
    simp [runItems, hi]
  | cons j pre ih =>
    intro i rest m hok hi
    obtain ⟨psj, hpsj⟩ := hok j (List.mem_cons_self j pre)
    have htail := ih i rest m (fun x hx => hok x (List.mem_cons_of_mem j hx)) hi
    simp [runItems, hpsj, htail]

lemma runItems_noFail_eq_spec
    (proc : Nat → Except String (List (List (String × String)))) :
    ∀ idxs : List Nat, (∀ j ∈ idxs, ∃ ps, proc j = .ok ps) →
      runItems proc false idxs = .ok (runItemsSpec proc idxs) := by
  intro idxs
  induction idxs with
  | nil => intro _; rfl
  | cons i rest ih =>
    intro hok
    obtain ⟨psi, hpsi⟩ := hok i (List.mem_cons_self i rest)
    have htail := ih (fun x hx => hok x (List.mem_cons_of_mem i hx))
    simp [runItems, runItemsSpec, hpsi, htail]

/-- Claim C8: every record pushed for item `i` carries `pairedItem i`;
with continue-on-failure enabled a failing item contributes a record
holding only its error message and processing continues with the later
items (the whole batch output is the per-item blocks in order); with it
disabled the first failing item aborts the batch with that error. -/
theorem execute_batch_failure_policy
    (proc : Nat → Except String (List (List (String × String)))) (idxs : List Nat) :
    runItems proc true idxs = .ok (runItemsSpec proc idxs) ∧
    (∀ r ∈ runItemsSpec proc idxs,
      (∃ ps, proc r.pairedItem = .ok ps ∧ r.json ∈ ps) ∨
      (∃ m, proc r.pairedItem = .error m ∧ r.json = [("error", m)])) ∧
    (∀ pre i rest m, (∀ j ∈ pre, ∃ ps, proc j = .ok ps) → proc i = .error m →
      runItems proc false (pre ++ i :: rest) = .error m) ∧
    ((∀ j ∈ idxs, ∃ ps, proc j = .ok ps) →
      runItems proc false idxs = .ok (runItemsSpec proc idxs)) :=
  ⟨runItems_cof_eq_spec proc idxs, runItemsSpec_paired proc idxs,
    runItems_abort proc, runItems_noFail_eq_spec proc idxs⟩

/-- Witness for C8 with a three-item batch whose middle item fails:
continue-on-failure yields three records (the middle one an error record
with its own index), abort mode stops with the error. -/
theorem execute_batch_failure_policy_witness :
    runItems (fun i => if i = 1 then .error "boom" else .ok [[("size", "4")]])
        true [0, 1, 2] =
      .ok [OutRecord.mk [("size", "4")] 0, OutRecord.mk [("error", "boom")] 1,
        OutRecord.mk [("size", "4")] 2] ∧
    runItems (fun i => if i = 1 then .error "boom" else .ok [[("size", "4")]])
        false ([0] ++ 1 :: [2]) = .error "boom" :=
  ⟨(execute_batch_failure_policy
        (fun i => if i = 1 then .error "boom" else .ok [[("size", "4")]])
        [0, 1, 2]).1.trans (congrArg Except.ok (by decide)),
    (execute_batch_failure_policy
        (fun i => if i = 1 then .error "boom" else .ok [[("size", "4")]])
        [0, 1, 2]).2.2.1 [0] 1 [2] "boom"
      (by
        intro j hj
        simp only [List.mem_singleton] at hj
        subst hj
        exact ⟨[[("size", "4")]], rfl⟩)
      rfl⟩

/-- Claim C9: the translate branch always submits an array of texts: the
parsed value exactly when the input string parses as a JSON array, and
the one-element list holding the raw input string in every other case
(parse failure or a non-array parse result). -/
theorem translate_texts_parsing (parseResult : Except Unit JsValue)
    (textsInput : String) :
    (∀ xs, parseResult = .ok (.arr xs) →
      parseTranslateTexts parseResult textsInput = xs) ∧
    ((∀ xs, parseResult ≠ .ok (.arr xs)) →
      parseTranslateTexts parseResult textsInput = [.str textsInput]) := by
  constructor
  · intro xs h
    rw [h]
    rfl
  · intro h
    match parseResult with
    | .error _ => rfl
    | .ok (.str _) => rfl
    | .ok (.num _) => rfl
    | .ok (.bool _) => rfl
    | .ok .null => rfl
    | .ok (.obj _) => rfl
    | .ok (.arr xs) => exact absurd rfl (h xs)

/-- Witness for C9: a parsed two-element array is used as is; a parse
failure and a parsed non-array both fall back to the raw input. -/
theorem translate_texts_parsing_witness :
    parseTranslateTexts (.ok (.arr [.str "hello", .str "world"])) "raw input" =
      [.str "hello", .str "world"] ∧
    parseTranslateTexts (.error ()) "raw input" = [.str "raw input"] ∧
    parseTranslateTexts (.ok (.num 5)) "5" = [.str "5"] :=
  ⟨(translate_texts_parsing (.ok (.arr [.str "hello", .str "world"]))
      "raw input").1 [.str "hello", .str "world"] rfl,
    (translate_texts_parsing (.error ()) "raw input").2
      (fun xs h => Except.noConfusion h),
    (translate_texts_parsing (.ok (.num 5)) "5").2
      (fun xs h => JsValue.noConfusion (Except.ok.inj h))⟩

/-- Claim C10: the createVoice branch downloads exactly the first two
preview URLs and produces exactly two binary outputs, keyed by the
caller-chosen name and that name with `_preview2` appended; it succeeds
exactly when the previews list has at least two entries — there is no
guard for shorter lists. -/
theorem createVoice_previews (previews : List String) (name : String) :
    (∀ url1 url2 rest2, previews = url1 :: url2 :: rest2 →
      createVoicePreviews previews name =
        .ok [(name, url1), (name ++ "_preview2", url2)]) ∧
    ((∃ out, createVoicePreviews previews name = .ok out) ↔
      2 ≤ previews.length) := by
  constructor
  · intro url1 url2 rest2 h
    subst h
    rfl
  · match previews with
    | [] =>
      simp [createVoicePreviews]
    | [u] =>
      simp [createVoicePreviews]
    | u1 :: u2 :: rest2 =>
      simp only [createVoicePreviews, List.length_cons]
      constructor
      · intro _
        omega
      · intro _
        exact ⟨[(name, u1), (name ++ "_preview2", u2)], rfl⟩

/-- Witness for C10: with three previews only the first two are
downloaded and keyed `data` and `data_preview2`. -/
theorem createVoice_previews_witness :
    createVoicePreviews ["https://cdn/p1.mp3", "https://cdn/p2.mp3",
        "https://cdn/p3.mp3"] "data" =
      .ok [("data", "https://cdn/p1.mp3"), ("data_preview2", "https://cdn/p2.mp3")] ∧
    ¬∃ out, createVoicePreviews ["https://cdn/p1.mp3"] "data" = .ok out :=
  ⟨(createVoice_previews ["https://cdn/p1.mp3", "https://cdn/p2.mp3",
        "https://cdn/p3.mp3"] "data").1
      "https://cdn/p1.mp3" "https://cdn/p2.mp3" ["https://cdn/p3.mp3"] rfl,
    fun h =>
      absurd ((createVoice_previews ["https://cdn/p1.mp3"] "data").2.mp h)
        (by decide)⟩
